import Mathlib

/-!
Shallow embedding of the ButterCMS bridge (src/app.py, src/config.py) and
proofs about its query-parameter merging, header copying, proxy response
shaping, path normalization and HTML rendering.
-/

namespace ButterBridge

/-! ## Basic Python string operations used by the code -/

/-- Python's `str.lower()` restricted to its ASCII action, modelled
character-by-character over the string's data. -/
def pyLower (s : String) : String :=
  ⟨s.data.map Char.toLower⟩

/-! ## Query parameter merging (src/app.py, `_merge_query_params`)

The Python function builds an insertion-ordered `dict` mapping keys to lists
of values.  We model that dictionary as an association list with unique keys,
together with the two operations the code performs on it:
`merged.setdefault(k, []).append(v)` and `merged["auth_token"] = [token]`. -/

/-- The dictionary `Dict[str, List[str]]`, insertion ordered. -/
abbrev QDict := List (String × List String)

/-- Lookup of a key in the dictionary. -/
def qLookup (d : QDict) (k : String) : Option (List String) :=
  match d with
  | [] => none
  | (k', vs) :: rest => if k' = k then some vs else qLookup rest k

/-- The effect of `merged.setdefault(k, []).append(v)`: append `v` to the
list at `k`, inserting `(k, [v])` at the end when `k` is absent. -/
def qAppend (d : QDict) (k : String) (v : String) : QDict :=
  match d with
  | [] => [(k, [v])]
  | (k', vs) :: rest =>
    if k' = k then (k', vs ++ [v]) :: rest else (k', vs) :: qAppend rest k v

/-- The effect of `merged[k] = vs`: overwrite the binding at `k`, inserting
`(k, vs)` at the end when `k` is absent. -/
def qSet (d : QDict) (k : String) (vs : List String) : QDict :=
  match d with
  | [] => [(k, vs)]
  | (k', vs') :: rest =>
    if k' = k then (k', vs) :: rest else (k', vs') :: qSet rest k vs

/-- One iteration of the `for k, v in original` loop of
`_merge_query_params`: pairs whose key lowercases to `"auth_token"` are
skipped, every other pair is appended to the dictionary. -/
def mergeStep (d : QDict) (kv : String × String) : QDict :=
  if pyLower kv.1 = "auth_token" then d else qAppend d kv.1 kv.2

/-- `_merge_query_params(original)` with the module constant
`BUTTER_API_TOKEN` passed explicitly as `token`. -/
def mergeQueryParams (token : String) (original : List (String × String)) : QDict :=
  qSet (original.foldl mergeStep []) "auth_token" [token]

/-- `Settings.get_butter_token` (src/config.py): the stripped environment
value, or `none` when the stripped value is empty. -/
def getButterToken (env : String) : Option String :=
  let t := env.trim
  if t = "" then none else some t

/-- The module constant `BUTTER_API_TOKEN = settings.get_butter_token() or ""`
(src/app.py line 12). -/
def butterApiToken (env : String) : String :=
  (getButterToken env).getD ""

/-- The pair filter used to state credential independence: keeps exactly the
pairs `_merge_query_params` does not skip. -/
def nonAuthPair (kv : String × String) : Bool :=
  pyLower kv.1 != "auth_token"

/-- The multiset of values the input list associates with key `k`, in input
order. -/
def valuesFor (k : String) (o : List (String × String)) : List String :=
  o.filterMap fun kv => if kv.1 = k then some kv.2 else none

/-- Extension of an optional dictionary entry by a list of freshly appended
values: an absent entry stays absent only when nothing is appended. -/
def optExtend (o : Option (List String)) (l : List String) : Option (List String) :=
  match o, l with
  | none, [] => none
  | some vs, l => some (vs ++ l)
  | none, l => some l

/-! ## Path normalization (src/app.py, `_proxy_get` lines 62-65)

The code computes `norm = path.lstrip("/").rstrip("/") + "/"` and requests
`f"{BUTTER_V2}/{norm}"`.  Python's `lstrip("/")` / `rstrip("/")` drop every
leading / trailing `'/'`; we model them over the string's character list. -/

/-- The character predicate of `lstrip("/")` and `rstrip("/")`. -/
def slashChar (c : Char) : Bool := c == '/'

/-- Python `s.lstrip("/")` on a character list. -/
def lstripSlash (l : List Char) : List Char := l.dropWhile slashChar

/-- Python `s.rstrip("/")` on a character list. -/
def rstripSlash (l : List Char) : List Char :=
  (l.reverse.dropWhile slashChar).reverse

/-- `norm = path.lstrip("/").rstrip("/") + "/"` from `_proxy_get`. -/
def normPath (p : String) : String :=
  ⟨rstripSlash (lstripSlash p.data) ++ ['/']⟩

/-- `Settings.BUTTER_V2` (src/config.py line 13). -/
def BUTTER_V2 : String := "/v2"

/-- The upstream request target `f"{BUTTER_V2}/{norm}"` of `_proxy_get`. -/
def upstreamUrl (p : String) : String := BUTTER_V2 ++ "/" ++ normPath p

/-! ## Upstream headers (httpx.Headers / starlette response headers)

httpx header lookup is case-insensitive and joins repeated headers with
", "; starlette response header assignment replaces case-insensitively.
Headers are modelled as ordered lists of raw (name, value) pairs. -/

/-- All values stored under a (lowercase) header name, in order. -/
def headerValues (hs : List (String × String)) (name : String) : List String :=
  hs.filterMap fun p => if pyLower p.1 = name then some p.2 else none

/-- Python `", ".join(vs)`. -/
def joinComma : List String → String
  | [] => ""
  | [v] => v
  | v :: rest => v ++ ", " ++ joinComma rest

/-- `headers[name]` / `headers.get(name)` for a lowercase `name`: the
", "-join of all matching values, absent when none match. -/
def headerGet (hs : List (String × String)) (name : String) : Option String :=
  match headerValues hs name with
  | [] => none
  | vs => some (joinComma vs)

/-- `UPSTREAM_CACHE_HEADERS` (src/app.py line 40).  The Python value is a
set; the copying loop below is insensitive to iteration order because the
four names are distinct, so the set is modelled as this list. -/
def UPSTREAM_CACHE_HEADERS : List String :=
  ["cache-control", "etag", "last-modified", "expires"]

/-- `response.headers[k] = v`: replace case-insensitive matches, append
when absent. -/
def headerSet (hs : List (String × String)) (k v : String) : List (String × String) :=
  if hs.any fun p => pyLower p.1 = pyLower k then
    hs.map fun p => if pyLower p.1 = pyLower k then (k, v) else p
  else hs ++ [(k, v)]

/-- `_copy_cache_headers(upstream_headers, response)` (src/app.py 53-56):
copy each cache header present upstream onto the response. -/
def copyCacheHeaders (upstream response : List (String × String)) :
    List (String × String) :=
  UPSTREAM_CACHE_HEADERS.foldl
    (fun resp h =>
      match headerGet upstream h with
      | some v => headerSet resp h v
      | none => resp)
    response

/-! ## Proxy response shaping (src/app.py, `_proxy_get` lines 66-80) -/

/-- The upstream `httpx.Response` as `_proxy_get` consumes it: status code,
raw headers, raw body bytes (`upstream.content`) and decoded body text
(`upstream.text`). -/
structure Upstream where
  status : Nat
  headers : List (String × String)
  content : List Nat
  text : String
deriving DecidableEq

/-- The body argument passed to the `Response` constructor: raw bytes in the
JSON branch, decoded text otherwise. -/
inductive BodyData where
  | bytes (b : List Nat)
  | text (t : String)
deriving DecidableEq

/-- The outgoing `Response(content=..., media_type=..., status_code=...)`. -/
structure ProxyReply where
  status : Nat
  mediaType : String
  body : BodyData
deriving DecidableEq

/-- Whether the character list `l` starts with `sub`. -/
def startsList : List Char → List Char → Bool
  | [], _ => true
  | _ :: _, [] => false
  | a :: l1, b :: l2 => a == b && startsList l1 l2

/-- Substring occurrence, Python's `sub in l`. -/
def containsSubList (sub : List Char) : List Char → Bool
  | [] => startsList sub []
  | b :: t => startsList sub (b :: t) || containsSubList sub t

/-- Python `sub in s` on strings. -/
def strContains (s sub : String) : Bool := containsSubList sub.data s.data

/-- `ctype = upstream.headers.get("content-type", "")`. -/
def ctypeOf (u : Upstream) : String :=
  (headerGet u.headers "content-type").getD ""

/-- The response value `_proxy_get` returns, as a function of the upstream
response: JSON passthrough of the raw bytes when the lowercased content type
contains `"application/json"`, otherwise the decoded text under the upstream
content type with a `"text/plain"` fallback for an absent or empty one. -/
def proxyGetReply (u : Upstream) : ProxyReply :=
  if strContains (pyLower (ctypeOf u)) "application/json" then
    ⟨u.status, "application/json", BodyData.bytes u.content⟩
  else
    ⟨u.status, if ctypeOf u = "" then "text/plain" else ctypeOf u, BodyData.text u.text⟩

/-! ## JSON payloads and Python value semantics

`r.json()` values are modelled by `JVal` (numbers as integers: the payload
fields the views read are page numbers, strings and objects). -/

inductive JVal where
  | null
  | bool (b : Bool)
  | num (n : Int)
  | str (s : String)
  | arr (elems : List JVal)
  | obj (fields : List (String × JVal))

/-- Python `dict.get(k)` on a JSON object's field list. -/
def jGet (fields : List (String × JVal)) (k : String) : Option JVal :=
  (fields.find? fun f => f.1 == k).map Prod.snd

/-- Python truthiness of a JSON value. -/
def truthy : JVal → Bool
  | .null => false
  | .bool b => b
  | .num n => n != 0
  | .str s => s != ""
  | .arr xs => !xs.isEmpty
  | .obj fs => !fs.isEmpty

/-- Python `a or b` under truthiness. -/
def pyOr (a b : JVal) : JVal := if truthy a then a else b

mutual
/-- Simplified Python `repr` of a JSON value (string quoting uses `'`
without escape handling; the claims only interpolate string fields). -/
def pyRepr : JVal → String
  | .null => "None"
  | .bool true => "True"
  | .bool false => "False"
  | .num n => toString n
  | .str s => "\x27" ++ s ++ "\x27"
  | .arr xs => "[" ++ joinComma (pyReprList xs) ++ "]"
  | .obj fs => "\x7b" ++ joinComma (pyReprFields fs) ++ "\x7d"

def pyReprList : List JVal → List String
  | [] => []
  | x :: t => pyRepr x :: pyReprList t

def pyReprFields : List (String × JVal) → List String
  | [] => []
  | f :: t => ("\x27" ++ f.1 ++ "\x27: " ++ pyRepr f.2) :: pyReprFields t
end

/-- Python `str(v)` as used by f-string interpolation. -/
def pyStr : JVal → String
  | .str s => s
  | v => pyRepr v

/-- Python `v[:10]`: slicing is defined on strings and lists and raises
`TypeError` (modelled as `none`) on other values. -/
def pySlice10 : JVal → Option JVal
  | .str s => some (.str ⟨s.data.take 10⟩)
  | .arr xs => some (.arr (xs.take 10))
  | _ => none

/-- Python `for p in v`: lists yield elements, strings yield one-character
strings, dicts yield their keys; other values raise (modelled as `none`). -/
def pyIter : JVal → Option (List JVal)
  | .arr xs => some xs
  | .str s => some (s.data.map fun c => .str ⟨[c]⟩)
  | .obj fs => some (fs.map fun f => .str f.1)
  | _ => none

/-- Decimal value of a digit list. -/
def digitsVal (l : List Char) : Nat :=
  l.foldl (fun acc c => acc * 10 + (c.toNat - '0'.toNat)) 0

/-- The ASCII whitespace Python's `int` strips. -/
def pyWhitespace (c : Char) : Bool :=
  c == ' ' || c == '\t' || c == '\n' || c == '\r' || c == '\x0B' || c == '\x0C'

/-- Strip surrounding whitespace from a character list. -/
def pyStripWs (l : List Char) : List Char :=
  ((l.dropWhile pyWhitespace).reverse.dropWhile pyWhitespace).reverse

/-- Python `int(s)` on decimal strings: optional surrounding whitespace, an
optional sign, then at least one ASCII digit (digit-group underscores are
not modelled).  `none` models the `ValueError` the `except` clause turns
into the default page 1. -/
def pyInt (s : String) : Option Int :=
  match pyStripWs s.data with
  | [] => none
  | '+' :: ds =>
    if ds ≠ [] ∧ ds.all Char.isDigit then some (digitsVal ds) else none
  | '-' :: ds =>
    if ds ≠ [] ∧ ds.all Char.isDigit then some (-(digitsVal ds : Int)) else none
  | ds => if ds.all Char.isDigit then some (digitsVal ds) else none

/-! ## HTML rendering (src/app.py lines 119-130, 404-530)

The f-strings of the source are reproduced as explicit concatenations; the
brace and apostrophe characters of the CSS appear as escapes. -/
def HTML_BASE_CSS : String :=
  "\n<style>\n  :root \x7b \n    \x2d-bg: linear-gradient(135deg, #667eea 0%, #764ba2 100%);\n    \x2d-card-bg: rgba(255, 255, 255, 0.95);\n    \x2d-text: #2d3748;\n    \x2d-text-muted: #718096;\n    \x2d-accent: #4299e1;\n    \x2d-accent-hover: #3182ce;\n    \x2d-border: rgba(160, 174, 192, 0.2);\n    \x2d-shadow: 0 10px 25px -5px rgba(0, 0, 0, 0.1), 0 10px 10px -5px rgba(0, 0, 0, 0.04);\n  \x7d\n  * \x7b box-sizing: border-box; \x7d\n  body \x7b \n    background: var(--bg);\n    color: var(--text);\n    margin: 0;\n    font-family: \x27Inter\x27, -apple-system, BlinkMacSystemFont, \x27Segoe UI\x27, Roboto, \x27Helvetica Neue\x27, Arial, sans-serif;\n    line-height: 1.6;\n    min-height: 100vh;\n  \x7d\n  a \x7b \n    color: var(--accent); \n    text-decoration: none; \n    transition: color 0.2s ease;\n  \x7d\n  a:hover \x7b color: var(--accent-hover); \x7d\n  \n  header \x7b \n    background: rgba(255, 255, 255, 0.9);\n    backdrop-filter: blur(10px);\n    border-bottom: 1px solid var(--border);\n    position: sticky; \n    top: 0; \n    z-index: 100;\n    box-shadow: var(--shadow);\n  \x7d\n  \n  .header-content \x7b\n    max-width: 1200px;\n    margin: 0 auto;\n    padding: 20px 24px;\n    display: flex;\n    align-items: center;\n    justify-content: space-between;\n  \x7d\n  \n  .logo \x7b\n    font-size: 28px;\n    font-weight: 700;\n    background: linear-gradient(135deg, #667eea 0%, #764ba2 100%);\n    -webkit-background-clip: text;\n    -webkit-text-fill-color: transparent;\n    background-clip: text;\n  \x7d\n  \n  .nav-links \x7b\n    display: flex;\n    gap: 24px;\n    align-items: center;\n  \x7d\n  \n  .nav-links a \x7b\n    font-weight: 500;\n    padding: 8px 16px;\n    border-radius: 8px;\n    transition: all 0.2s ease;\n  \x7d\n  \n  .nav-links a:hover \x7b\n    background: var(--accent);\n    color: white;\n  \x7d\n  \n  .wrap \x7b \n    max-width: 1200px; \n    margin: 0 auto; \n    padding: 32px 24px; \n  \x7d\n  \n  .hero \x7b\n    text-align: center;\n    padding: 60px 0;\n    background: rgba(255, 255, 255, 0.1);\n    border-radius: 20px;\n    margin-bottom: 40px;\n    backdrop-filter: blur(10px);\n  \x7d\n  \n  .hero h1 \x7b\n    font-size: 48px;\n    font-weight: 800;\n    margin: 0 0 16px;\n    background: linear-gradient(135deg, #667eea 0%, #764ba2 100%);\n    -webkit-background-clip: text;\n    -webkit-text-fill-color: transparent;\n    background-clip: text;\n  \x7d\n  \n  .hero p \x7b\n    font-size: 20px;\n    color: var(--text-muted);\n    margin: 0;\n  \x7d\n  \n  .grid \x7b \n    display: grid; \n    gap: 24px; \n    grid-template-columns: repeat(auto-fit, minmax(320px, 1fr)); \n  \x7d\n  \n  .card \x7b \n    background: var(--card-bg);\n    border: 1px solid var(--border);\n    border-radius: 16px;\n    padding: 24px;\n    box-shadow: var(--shadow);\n    transition: transform 0.2s ease, box-shadow 0.2s ease;\n  \x7d\n  \n  .card:hover \x7b\n    transform: translateY(-2px);\n    box-shadow: 0 20px 40px -10px rgba(0, 0, 0, 0.15);\n  \x7d\n  \n  .title \x7b \n    font-size: 22px; \n    font-weight: 700;\n    margin: 0 0 12px;\n    line-height: 1.3;\n  \x7d\n  \n  .meta \x7b \n    color: var(--text-muted); \n    font-size: 14px; \n    margin-bottom: 16px;\n    display: flex;\n    align-items: center;\n    gap: 8px;\n  \x7d\n  \n  .meta::before \x7b\n    content: \"📅\";\n  \x7d\n  \n  .desc \x7b \n    color: var(--text); \n    font-size: 16px; \n    line-height: 1.6;\n    margin-bottom: 20px;\n  \x7d\n  \n  nav.pager \x7b \n    display: flex; \n    justify-content: space-between; \n    align-items: center;\n    gap: 16px; \n    margin-top: 40px;\n    padding: 20px 0;\n  \x7d\n  \n  .btn \x7b \n    display: inline-flex;\n    align-items: center;\n    gap: 8px;\n    padding: 12px 24px; \n    border-radius: 12px; \n    background: var(--accent);\n    color: white;\n    border: none;\n    font-weight: 600;\n    font-size: 14px;\n    transition: all 0.2s ease;\n    cursor: pointer;\n  \x7d\n  \n  .btn:hover \x7b\n    background: var(--accent-hover);\n    transform: translateY(-1px);\n    color: white;\n  \x7d\n  \n  .btn[disabled] \x7b \n    opacity: 0.5; \n    pointer-events: none;\n    transform: none;\n  \x7d\n  \n  .btn.secondary \x7b\n    background: rgba(255, 255, 255, 0.9);\n    color: var(--accent);\n    border: 1px solid var(--border);\n  \x7d\n  \n  .btn.secondary:hover \x7b\n    background: white;\n    color: var(--accent-hover);\n  \x7d\n  \n  article \x7b \n    background: var(--card-bg);\n    border: 1px solid var(--border);\n    border-radius: 20px;\n    padding: 40px;\n    box-shadow: var(--shadow);\n    margin-bottom: 24px;\n  \x7d\n  \n  article h1 \x7b \n    font-size: 36px; \n    font-weight: 800;\n    margin: 0 0 20px;\n    line-height: 1.2;\n  \x7d\n  \n  .content \x7b \n    color: var(--text); \n    line-height: 1.8;\n    font-size: 16px;\n  \x7d\n  \n  .content img \x7b \n    max-width: 100%; \n    height: auto; \n    border-radius: 12px;\n    margin: 20px 0;\n    box-shadow: var(--shadow);\n  \x7d\n  \n  .content h2 \x7b\n    font-size: 24px;\n    font-weight: 700;\n    margin: 32px 0 16px;\n    color: var(--text);\n  \x7d\n  \n  .content h3 \x7b\n    font-size: 20px;\n    font-weight: 600;\n    margin: 24px 0 12px;\n    color: var(--text);\n  \x7d\n  \n  .content p \x7b\n    margin: 16px 0;\n  \x7d\n  \n  .content blockquote \x7b\n    border-left: 4px solid var(--accent);\n    padding-left: 20px;\n    margin: 24px 0;\n    font-style: italic;\n    color: var(--text-muted);\n  \x7d\n  \n  footer \x7b \n    background: rgba(255, 255, 255, 0.9);\n    color: var(--text-muted); \n    font-size: 14px; \n    text-align: center; \n    padding: 40px 24px;\n    margin-top: 60px;\n    border-top: 1px solid var(--border);\n  \x7d\n  \n  .page-indicator \x7b\n    background: rgba(255, 255, 255, 0.9);\n    padding: 8px 16px;\n    border-radius: 20px;\n    font-weight: 600;\n    border: 1px solid var(--border);\n  \x7d\n  \n  @media (max-width: 768px) \x7b\n    .hero h1 \x7b font-size: 32px; \x7d\n    .hero p \x7b font-size: 18px; \x7d\n    .grid \x7b grid-template-columns: 1fr; \x7d\n    .nav-links \x7b display: none; \x7d\n    article \x7b padding: 24px; \x7d\n    .wrap \x7b padding: 20px 16px; \x7d\n  \x7d\n</style>\n"

/-- `_html_shell(title, body)` (src/app.py 404-429). -/
def htmlShell (title body : String) : String :=
  "<!doctype html>\n<html lang=\"es\">\n<head>\n<meta charset=\"utf-8\" />\n<meta name=\"viewport\" content=\"width=device-width,initial-scale=1\" />\n<title>"
  ++ title
  ++ "</title>\n<link rel=\"preconnect\" href=\"https://fonts.googleapis.com\">\n<link rel=\"preconnect\" href=\"https://fonts.gstatic.com\" crossorigin>\n<link href=\"https://fonts.googleapis.com/css2?family=Inter:wght@400;500;600;700;800&display=swap\" rel=\"stylesheet\">\n"
  ++ HTML_BASE_CSS
  ++ "\n</head>\n<body>\n<header>\n  <div class=\"header-content\">\n    <div class=\"logo\">🧸 Nannyfy</div>\n    <nav class=\"nav-links\">\n      <a href=\"/\">Inicio</a>\n      <a href=\"/blog\">Blog</a>\n    </nav>\n  </div>\n</header>\n<main class=\"wrap\">"
  ++ body
  ++ "</main>\n<footer>© 2025 Nannyfy • Tu plataforma de cuidado infantil de confianza • Powered by FastAPI</footer>\n</body>\n</html>"

/-- The card template of the `/blog` loop (src/app.py 483-490). -/
def cardHtml (slug title published summary : String) : String :=
  "\n        <div class=\"card\">\n          <h2 class=\"title\"><a href=\"/blog/"
  ++ slug ++ "\">" ++ title
  ++ "</a></h2>\n          <div class=\"meta\">Publicado el " ++ published
  ++ "</div>\n          <p class=\"desc\">" ++ summary
  ++ "</p>\n          <a class=\"btn\" href=\"/blog/" ++ slug
  ++ "\">📖 Leer artículo</a>\n        </div>\n        "

/-- One iteration of the card loop: extract the post's fields with their
defaults and render the card; `none` models the exceptions a non-object
post or an unsliceable `published` value raises. -/
def cardOf (p : JVal) : Option String :=
  match p with
  | .obj fs =>
    let slug := (jGet fs "slug").getD (.str "")
    let title := (jGet fs "title").getD (.str "Sin título")
    let summary := pyOr ((jGet fs "summary").getD .null) (.str "")
    match pySlice10 (pyOr ((jGet fs "published").getD .null) (.str "")) with
    | some published =>
      some (cardHtml (pyStr slug) (pyStr title) (pyStr published) (pyStr summary))
    | none => none
  | _ => none

/-- The fallback card of the empty grid (src/app.py line 491). -/
def noPostsCard : String :=
  "<div class=\"card\"><h2 class=\"title\">📝 No hay artículos disponibles</h2><p class=\"desc\">Pronto tendremos contenido interesante sobre cuidado infantil.</p></div>"

/-- Python `"".join`. -/
def joinAll : List String → String
  | [] => ""
  | s :: t => s ++ joinAll t

/-- The grid line (src/app.py 491): the joined cards, or the fallback card
when the join is empty. -/
def gridHtml (cards : List String) : String :=
  "<div class=\"grid\">"
  ++ (if joinAll cards = "" then noPostsCard else joinAll cards)
  ++ "</div>"

/-- `prev_q` (src/app.py 496). -/
def prevQ (previous_page : JVal) (curr : Int) (page_size : String) : String :=
  if truthy previous_page then
    "?page=" ++ toString (curr - 1) ++ "&page_size=" ++ page_size
  else ""

/-- `next_q` (src/app.py 497). -/
def nextQ (next_page : JVal) (curr : Int) (page_size : String) : String :=
  if truthy next_page then
    "?page=" ++ toString (curr + 1) ++ "&page_size=" ++ page_size
  else ""

/-- The `"disabled" if not v else ""` attribute of the pager links. -/
def disabledAttr (v : JVal) : String := if truthy v then "" else "disabled"

/-- The pager fragment (src/app.py 498-504). -/
def pagerHtml (previous_page next_page : JVal) (curr : Int) (page_size : String) : String :=
  "\n    <nav class=\"pager\">\n      <a class=\"btn\" " ++ disabledAttr previous_page
  ++ " href=\"/blog" ++ prevQ previous_page curr page_size
  ++ "\">← Anterior</a>\n      <span class=\"page-indicator\">Página " ++ toString curr
  ++ "</span>\n      <a class=\"btn\" " ++ disabledAttr next_page
  ++ " href=\"/blog" ++ nextQ next_page curr page_size
  ++ "\">Siguiente →</a>\n    </nav>\n    "

/-- The card loop over the posts: all cards in order, or the exception of
the first failing iteration. -/
def cardsOf : List JVal → Option (List String)
  | [] => some []
  | p :: t =>
    match cardOf p, cardsOf t with
    | some c, some cs => some (c :: cs)
    | _, _ => none

/-- The 200 branch of `blog_index` (src/app.py 472-506) as a function of the
parsed upstream payload and the two (already defaulted) query parameters;
`none` models an unhandled exception while reading the payload. -/
def blogIndexRender (payload : JVal) (page page_size : String) : Option String :=
  match payload with
  | .obj fs =>
    let dataField := (jGet fs "data").getD (.arr [])
    match pyOr ((jGet fs "meta").getD (.obj [])) (.obj []) with
    | .obj metaFs =>
      let next_page := (jGet metaFs "next_page").getD .null
      let previous_page := (jGet metaFs "previous_page").getD .null
      match pyIter dataField with
      | some posts =>
        match cardsOf posts with
        | some cards =>
          let curr := (pyInt page).getD 1
          some (htmlShell "Nannyfy • Blog de Crianza y Cuidado Infantil"
            (gridHtml cards ++ pagerHtml previous_page next_page curr page_size))
        | none => none
      | none => none
    | _ => none
  | _ => none

/-- The responses the two HTML routes can return. -/
inductive RouteReply where
  | plainText (body : String) (status : Nat)
  | htmlPage (body : String) (status : Nat)
deriving DecidableEq

/-- `blog_index` (src/app.py 461-506) as a function of the upstream status,
the parsed upstream payload and the raw query parameters: a plain-text error
carrying the upstream status when it is not 200, the rendered page (at
status 200) otherwise. -/
def blogIndexRoute (upstreamStatus : Nat) (payload : JVal)
    (pageOpt psOpt : Option String) : Option RouteReply :=
  let page := pageOpt.getD "1"
  let page_size := psOpt.getD "9"
  if upstreamStatus ≠ 200 then
    some (.plainText ("Error al cargar posts (" ++ toString upstreamStatus ++ ")")
      upstreamStatus)
  else
    (blogIndexRender payload page page_size).map fun h => .htmlPage h 200

/-- The article fragment of `blog_post` (src/app.py 522-529). -/
def articleHtml (title published body : String) : String :=
  "\n    <article>\n      <h1>" ++ title
  ++ "</h1>\n      <div class=\"meta\">📅 Publicado el " ++ published
  ++ "</div>\n      <div class=\"content\">" ++ body
  ++ "</div>\n      <p><a class=\"btn secondary\" href=\"/blog\">← Volver al blog</a></p>\n    </article>\n    "

/-- The 200 branch of `blog_post` (src/app.py 518-530) as a function of the
parsed upstream payload. -/
def blogPostRender (payload : JVal) : Option String :=
  match payload with
  | .obj fs =>
    match (jGet fs "data").getD (.obj []) with
    | .obj pfs =>
      let title := (jGet pfs "title").getD (.str "Sin título")
      match pySlice10 (pyOr ((jGet pfs "published").getD .null) (.str "")) with
      | some published =>
        let body := pyOr ((jGet pfs "body").getD .null) (.str "<p>Sin contenido.</p>")
        some (htmlShell ("Nannyfy • " ++ pyStr title)
          (articleHtml (pyStr title) (pyStr published) (pyStr body)))
      | none => none
    | _ => none
  | _ => none

/-- `blog_post` (src/app.py 509-530) as a function of the upstream status
and the parsed upstream payload. -/
def blogPostRoute (upstreamStatus : Nat) (payload : JVal) : Option RouteReply :=
  if upstreamStatus ≠ 200 then
    some (.plainText ("Post no encontrado (" ++ toString upstreamStatus ++ ")")
      upstreamStatus)
  else
    (blogPostRender payload).map fun h => .htmlPage h 200


/-! ## Lemmas about the dictionary operations -/

theorem qLookup_qAppend (d : QDict) (k v k' : String) :
    qLookup (qAppend d k v) k' =
      if k = k' then some ((qLookup d k').getD [] ++ [v]) else qLookup d k' := by
  induction d with
  | nil =>
    by_cases h : k = k' <;> simp [qAppend, qLookup, h]
  | cons hd tl ih =>
    obtain ⟨k₁, vs⟩ := hd
    by_cases h1 : k₁ = k
    · subst h1
      by_cases h2 : k₁ = k'
      · subst h2; simp [qAppend, qLookup]
      · simp [qAppend, qLookup, h2]
    · by_cases h2 : k₁ = k'
      · subst h2
        have hkk : ¬ k = k₁ := fun h => h1 h.symm
        simp [qAppend, qLookup, h1, hkk]
      · simp [qAppend, qLookup, h1, h2, ih]

theorem qLookup_qSet (d : QDict) (k : String) (vs : List String) (k' : String) :
    qLookup (qSet d k vs) k' = if k = k' then some vs else qLookup d k' := by
  induction d with
  | nil =>
    by_cases h : k = k' <;> simp [qSet, qLookup, h]
  | cons hd tl ih =>
    obtain ⟨k₁, vs₁⟩ := hd
    by_cases h1 : k₁ = k
    · subst h1
      by_cases h2 : k₁ = k'
      · subst h2; simp [qSet, qLookup]
      · simp [qSet, qLookup, h2]
    · by_cases h2 : k₁ = k'
      · subst h2
        have hkk : ¬ k = k₁ := fun h => h1 h.symm
        simp [qSet, qLookup, h1, hkk]
      · simp [qSet, qLookup, h1, h2, ih]

theorem optExtend_nil (o : Option (List String)) : optExtend o [] = o := by
  cases o <;> simp [optExtend]

theorem optExtend_cons (o : Option (List String)) (v : String) (l : List String) :
    optExtend (some ((o.getD []) ++ [v])) l = optExtend o (v :: l) := by
  cases o <;> simp [optExtend]

theorem optExtend_none (l : List String) :
    optExtend none l = if l = [] then none else some l := by
  cases l <;> simp [optExtend]

/-- Folding the merge loop never creates an entry whose key lowercases to
`"auth_token"`. -/
theorem foldl_mergeStep_auth (o : List (String × String)) (d : QDict) (k : String)
    (hk : pyLower k = "auth_token") (hd : qLookup d k = none) :
    qLookup (o.foldl mergeStep d) k = none := by
  induction o generalizing d with
  | nil => simpa using hd
  | cons kv t ih =>
    obtain ⟨k₁, v⟩ := kv
    by_cases h1 : pyLower k₁ = "auth_token"
    · simpa [mergeStep, h1] using ih d hd
    · have hne : k₁ ≠ k := fun h => h1 (h ▸ hk)
      have : qLookup (qAppend d k₁ v) k = none := by
        rw [qLookup_qAppend]; simp [hne, hd]
      simpa [mergeStep, h1] using ih (qAppend d k₁ v) this

/-- Folding the merge loop extends every non-credential entry with exactly
the input's values for that key, in order. -/
theorem foldl_mergeStep_lookup (o : List (String × String)) (d : QDict) (k : String)
    (hk : pyLower k ≠ "auth_token") :
    qLookup (o.foldl mergeStep d) k = optExtend (qLookup d k) (valuesFor k o) := by
  induction o generalizing d with
  | nil => simp [valuesFor, optExtend_nil]
  | cons kv t ih =>
    obtain ⟨k₁, v⟩ := kv
    by_cases h1 : pyLower k₁ = "auth_token"
    · have hne : k₁ ≠ k := fun h => hk (h ▸ h1)
      simp [mergeStep, h1, valuesFor, hne, ih d]
    · by_cases h2 : k₁ = k
      · subst h2
        have h3 := ih (qAppend d k₁ v)
        rw [qLookup_qAppend, if_pos rfl] at h3
        rw [List.foldl_cons,
          show mergeStep d (k₁, v) = qAppend d k₁ v by simp [mergeStep, h1],
          h3, optExtend_cons]
        simp [valuesFor]
      · have := ih (qAppend d k₁ v)
        rw [qLookup_qAppend, if_neg h2] at this
        simp [mergeStep, h1, this, valuesFor, h2]

/-- The merge loop is blind to the skipped pairs: folding over the input and
folding over the input with the credential pairs filtered out agree. -/
theorem foldl_mergeStep_filter (o : List (String × String)) (d : QDict) :
    o.foldl mergeStep d = (o.filter nonAuthPair).foldl mergeStep d := by
  induction o generalizing d with
  | nil => rfl
  | cons kv t ih =>
    by_cases h : pyLower kv.1 = "auth_token"
    · have : nonAuthPair kv = false := by simp [nonAuthPair, h]
      simp [mergeStep, h, this, ih]
    · have : nonAuthPair kv = true := by simp [nonAuthPair, h]
      simp [mergeStep, h, this, ih]

theorem pyLower_auth_token : pyLower "auth_token" = "auth_token" := by decide

/-! ## Lemmas about character-list stripping -/

theorem data_append (s t : String) : (s ++ t).data = s.data ++ t.data := rfl

theorem dropWhile_head_false (q : Char → Bool) (l : List Char) (c : Char)
    (h : (l.dropWhile q).head? = some c) : q c = false := by
  induction l with
  | nil => simp [List.dropWhile] at h
  | cons a t ih =>
    rw [List.dropWhile_cons] at h
    by_cases ha : q a
    · rw [if_pos ha] at h; exact ih h
    · rw [if_neg ha] at h
      have hac : a = c := by simpa using h
      subst hac; simpa using ha

theorem dropWhile_eq_self_of_head (q : Char → Bool) (l : List Char)
    (h : ∀ c, l.head? = some c → q c = false) : l.dropWhile q = l := by
  cases l with
  | nil => rfl
  | cons a t =>
    rw [List.dropWhile_cons, if_neg]
    simp [h a rfl]

theorem rstripSlash_decomp (m : List Char) :
    m = rstripSlash m ++ (m.reverse.takeWhile slashChar).reverse := by
  calc m = m.reverse.reverse := (List.reverse_reverse m).symm
  _ = (m.reverse.takeWhile slashChar ++ m.reverse.dropWhile slashChar).reverse := by
      rw [List.takeWhile_append_dropWhile]
  _ = (m.reverse.dropWhile slashChar).reverse ++ (m.reverse.takeWhile slashChar).reverse := by
      rw [List.reverse_append]
  _ = rstripSlash m ++ (m.reverse.takeWhile slashChar).reverse := rfl

theorem rstripSlash_getLast (m : List Char) (c : Char)
    (h : (rstripSlash m).getLast? = some c) : slashChar c = false := by
  have hrev : (rstripSlash m).reverse = m.reverse.dropWhile slashChar := by
    simp [rstripSlash]
  have h2 : (m.reverse.dropWhile slashChar).head? = some c := by
    rw [← hrev, List.head?_reverse]; exact h
  exact dropWhile_head_false _ _ _ h2

theorem normCore_head (p : List Char) (c : Char)
    (h : (rstripSlash (lstripSlash p)).head? = some c) : slashChar c = false := by
  have hd := rstripSlash_decomp (lstripSlash p)
  cases hrs : rstripSlash (lstripSlash p) with
  | nil => rw [hrs] at h; simp at h
  | cons a t =>
    rw [hrs] at h
    have hac : a = c := by simpa using h
    have hm : (lstripSlash p).head? = some a := by
      rw [hd, hrs]; rfl
    have := dropWhile_head_false slashChar p a hm
    rw [← hac]; exact this

/-! ## Claim theorems: query parameter merging -/

/-- C1: `_merge_query_params` drops every inbound pair whose key equals
`"auth_token"` case-insensitively, and the returned dictionary binds the key
`"auth_token"` to exactly the one-element list holding the server token. -/
theorem merge_query_params_credential (token : String) (original : List (String × String)) :
    qLookup (mergeQueryParams token original) "auth_token" = some [token] ∧
    ∀ k : String, pyLower k = "auth_token" → k ≠ "auth_token" →
      qLookup (mergeQueryParams token original) k = none := by
  constructor
  · unfold mergeQueryParams
    rw [qLookup_qSet, if_pos rfl]
  · intro k hlow hne
    unfold mergeQueryParams
    rw [qLookup_qSet, if_neg fun h => hne h.symm]
    exact foldl_mergeStep_auth original [] k hlow rfl

/-- Witness for C1 at a concrete input: an uppercase client credential key
is removed outright. -/
theorem merge_query_params_credential_w :
    qLookup (mergeQueryParams "srv" [("AUTH_TOKEN", "leak"), ("page", "2")]) "AUTH_TOKEN"
      = none :=
  (merge_query_params_credential "srv" [("AUTH_TOKEN", "leak"), ("page", "2")]).2
    "AUTH_TOKEN" (by decide) (by decide)

/-- C6: the merged dictionary is independent of client-supplied credential
pairs: two inbound lists agreeing outside `auth_token` pairs merge equal. -/
theorem merge_query_params_independent (token : String) (o1 o2 : List (String × String))
    (h : o1.filter nonAuthPair = o2.filter nonAuthPair) :
    mergeQueryParams token o1 = mergeQueryParams token o2 := by
  unfold mergeQueryParams
  rw [foldl_mergeStep_filter o1, foldl_mergeStep_filter o2, h]

/-- Witness for C6 at concrete inputs differing only in credential pairs. -/
theorem merge_query_params_independent_w :
    mergeQueryParams "srv" [("auth_token", "evil"), ("page", "3")] =
      mergeQueryParams "srv" [("page", "3"), ("AUTH_TOKEN", "other")] :=
  merge_query_params_independent "srv" [("auth_token", "evil"), ("page", "3")]
    [("page", "3"), ("AUTH_TOKEN", "other")] (by decide)

/-- C8: for every key other than (case-insensitive) `"auth_token"`, the
merged dictionary binds exactly the input's values for that key, in order and
with multiplicity, and binds nothing when the input has no such pair. -/
theorem merge_query_params_frame (token k : String) (original : List (String × String))
    (hk : pyLower k ≠ "auth_token") :
    qLookup (mergeQueryParams token original) k =
      if valuesFor k original = [] then none else some (valuesFor k original) := by
  unfold mergeQueryParams
  have hne : "auth_token" ≠ k := fun h => hk (by rw [← h]; exact pyLower_auth_token)
  rw [qLookup_qSet, if_neg hne, foldl_mergeStep_lookup original [] k hk]
  exact optExtend_none (valuesFor k original)

/-- Witness for C8: duplicate non-credential keys survive in order. -/
theorem merge_query_params_frame_w :
    qLookup (mergeQueryParams "srv" [("page", "1"), ("auth_token", "x"), ("page", "2")])
      "page" = some ["1", "2"] := by
  have h := merge_query_params_frame "srv" "page"
    [("page", "1"), ("auth_token", "x"), ("page", "2")] (by decide)
  simpa using h

/-! ## Claim theorems: path normalization -/

/-- C4: the path `_proxy_get` requests is the inbound path with all leading
and trailing slashes removed, followed by exactly one trailing slash,
appended after the `"/v2"` prefix and a separating slash. -/
theorem upstream_url_path_normalized (p : String) :
    ∃ a core b : List Char,
      p.data = a ++ core ++ b ∧
      (∀ c ∈ a, c = '/') ∧
      (∀ c ∈ b, c = '/') ∧
      (∀ c, core.head? = some c → c ≠ '/') ∧
      (∀ c, core.getLast? = some c → c ≠ '/') ∧
      (upstreamUrl p).data = "/v2/".data ++ core ++ ['/'] := by
  refine ⟨p.data.takeWhile slashChar, rstripSlash (lstripSlash p.data),
    ((lstripSlash p.data).reverse.takeWhile slashChar).reverse, ?_, ?_, ?_, ?_, ?_, ?_⟩
  · conv_lhs => rw [← List.takeWhile_append_dropWhile (p := slashChar) (l := p.data)]
    have h2 := rstripSlash_decomp (lstripSlash p.data)
    calc p.data.takeWhile slashChar ++ p.data.dropWhile slashChar
        = p.data.takeWhile slashChar ++ lstripSlash p.data := rfl
    _ = p.data.takeWhile slashChar ++
          (rstripSlash (lstripSlash p.data) ++
            ((lstripSlash p.data).reverse.takeWhile slashChar).reverse) := by rw [← h2]
    _ = p.data.takeWhile slashChar ++ rstripSlash (lstripSlash p.data) ++
          ((lstripSlash p.data).reverse.takeWhile slashChar).reverse := by
        rw [List.append_assoc]
  · intro c hc
    have := List.mem_takeWhile_imp hc
    simpa [slashChar] using this
  · intro c hc
    rw [List.mem_reverse] at hc
    have := List.mem_takeWhile_imp hc
    simpa [slashChar] using this
  · intro c hc
    have := normCore_head p.data c hc
    simpa [slashChar] using this
  · intro c hc
    have := rstripSlash_getLast (lstripSlash p.data) c hc
    simpa [slashChar] using this
  · show (BUTTER_V2 ++ "/" ++ normPath p).data = _
    rw [data_append, data_append]
    have hv : BUTTER_V2.data ++ "/".data = "/v2/".data := by decide
    have hn : (normPath p).data = rstripSlash (lstripSlash p.data) ++ ['/'] := rfl
    rw [hn, ← hv]
    simp [List.append_assoc]

/-- Witness for C4 at the concrete inbound path "//posts//". -/
theorem upstream_url_path_normalized_w :
    ∃ a core b : List Char,
      ("//posts//").data = a ++ core ++ b ∧
      (∀ c ∈ a, c = '/') ∧
      (∀ c ∈ b, c = '/') ∧
      (∀ c, core.head? = some c → c ≠ '/') ∧
      (∀ c, core.getLast? = some c → c ≠ '/') ∧
      (upstreamUrl "//posts//").data = "/v2/".data ++ core ++ ['/'] :=
  upstream_url_path_normalized "//posts//"

/-- C9: the trailing-slash normalization of `_proxy_get` is idempotent. -/
theorem normPath_idempotent (p : String) : normPath (normPath p) = normPath p := by
  have hkey : rstripSlash (lstripSlash (rstripSlash (lstripSlash p.data) ++ ['/'])) =
      rstripSlash (lstripSlash p.data) := by
    cases hc : rstripSlash (lstripSlash p.data) with
    | nil => decide
    | cons a t =>
      have ha : slashChar a = false := normCore_head p.data a (by rw [hc]; rfl)
      have h1 : lstripSlash ((a :: t) ++ ['/']) = (a :: t) ++ ['/'] := by
        show List.dropWhile slashChar (a :: (t ++ ['/'])) = a :: (t ++ ['/'])
        rw [List.dropWhile_cons, if_neg (by simp [ha])]
      have hlast : ∀ c, (a :: t).reverse.head? = some c → slashChar c = false := by
        intro c hcc
        rw [List.head?_reverse] at hcc
        exact rstripSlash_getLast (lstripSlash p.data) c (by rw [hc]; exact hcc)
      have h2 : rstripSlash ((a :: t) ++ ['/']) = a :: t := by
        show ((((a :: t) ++ ['/']).reverse).dropWhile slashChar).reverse = a :: t
        rw [List.reverse_append]
        show (List.dropWhile slashChar ('/' :: (a :: t).reverse)).reverse = a :: t
        rw [List.dropWhile_cons, if_pos (by simp [slashChar]),
          dropWhile_eq_self_of_head _ _ hlast, List.reverse_reverse]
      rw [h1, h2]
  show (⟨rstripSlash (lstripSlash (rstripSlash (lstripSlash p.data) ++ ['/'])) ++ ['/']⟩ : String)
      = ⟨rstripSlash (lstripSlash p.data) ++ ['/']⟩
  rw [hkey]

/-! ## Claim theorems: proxy response and cache headers -/

theorem pyLower_cache_control : pyLower "cache-control" = "cache-control" := by decide

theorem pyLower_etag : pyLower "etag" = "etag" := by decide

theorem pyLower_last_modified : pyLower "last-modified" = "last-modified" := by decide

theorem pyLower_expires : pyLower "expires" = "expires" := by decide

/-- C2: the reply `_proxy_get` builds keeps the upstream status code; when
the lowercased upstream content type contains `"application/json"` the reply
is the raw upstream bytes under media type `"application/json"`, otherwise it
is the upstream text under the upstream content type, falling back to
`"text/plain"` when the content-type header is absent or empty. -/
theorem proxy_get_reply_passthrough (u : Upstream) :
    (proxyGetReply u).status = u.status ∧
    (headerGet u.headers "content-type" = none → ctypeOf u = "") ∧
    (strContains (pyLower (ctypeOf u)) "application/json" = true →
      proxyGetReply u = ⟨u.status, "application/json", BodyData.bytes u.content⟩) ∧
    (strContains (pyLower (ctypeOf u)) "application/json" = false →
      proxyGetReply u =
        ⟨u.status, if ctypeOf u = "" then "text/plain" else ctypeOf u,
          BodyData.text u.text⟩) := by
  refine ⟨?_, ?_, ?_, ?_⟩
  · by_cases h : strContains (pyLower (ctypeOf u)) "application/json" <;>
      simp [proxyGetReply, h]
  · intro h; simp [ctypeOf, h]
  · intro h; simp [proxyGetReply, h]
  · intro h; simp [proxyGetReply, h]

/-- Witness for C2: a JSON upstream response passes through byte-identically
with the JSON media type. -/
theorem proxy_get_reply_passthrough_w :
    proxyGetReply ⟨200, [("Content-Type", "application/json; charset=utf-8")], [123, 125], "a"⟩
      = ⟨200, "application/json", BodyData.bytes [123, 125]⟩ :=
  (proxy_get_reply_passthrough
    ⟨200, [("Content-Type", "application/json; charset=utf-8")], [123, 125], "a"⟩).2.2.1
    (by decide)

set_option maxHeartbeats 2000000 in
/-- Evaluation of the copying loop: one optional entry per safelist name. -/
theorem copyCacheHeaders_eval (up : List (String × String)) :
    copyCacheHeaders up [] =
      ((headerGet up "cache-control").map fun v => ("cache-control", v)).toList ++
      ((headerGet up "etag").map fun v => ("etag", v)).toList ++
      ((headerGet up "last-modified").map fun v => ("last-modified", v)).toList ++
      ((headerGet up "expires").map fun v => ("expires", v)).toList := by
  rcases h1 : headerGet up "cache-control" with _ | v1 <;>
    rcases h2 : headerGet up "etag" with _ | v2 <;>
    rcases h3 : headerGet up "last-modified" with _ | v3 <;>
    rcases h4 : headerGet up "expires" with _ | v4 <;>
    simp [copyCacheHeaders, UPSTREAM_CACHE_HEADERS, headerSet, h1, h2, h3, h4,
      pyLower_cache_control, pyLower_etag, pyLower_last_modified, pyLower_expires]

set_option maxHeartbeats 4000000 in
/-- C3: starting from an empty response header set, `_copy_cache_headers`
produces exactly the cache-header safelist entries present upstream, each
with its upstream value, and no entry outside the safelist. -/
theorem copy_cache_headers_exact (up : List (String × String)) (n v : String) :
    (n, v) ∈ copyCacheHeaders up [] ↔
      n ∈ UPSTREAM_CACHE_HEADERS ∧ headerGet up n = some v := by
  rw [copyCacheHeaders_eval]
  rcases h1 : headerGet up "cache-control" with _ | v1 <;>
    rcases h2 : headerGet up "etag" with _ | v2 <;>
    rcases h3 : headerGet up "last-modified" with _ | v3 <;>
    rcases h4 : headerGet up "expires" with _ | v4 <;>
    by_cases e1 : n = "cache-control" <;>
    by_cases e2 : n = "etag" <;>
    by_cases e3 : n = "last-modified" <;>
    by_cases e4 : n = "expires" <;>
    simp_all [UPSTREAM_CACHE_HEADERS, eq_comm]


/-! ## Claim theorems: HTML views -/

theorem str_eq_iff_data (s t : String) : s = t ↔ s.data = t.data := by
  constructor
  · intro h; rw [h]
  · intro h; cases s; cases t; exact congrArg String.mk h

theorem qpage_ne_empty (t ps : String) :
    "?page=" ++ t ++ "&page_size=" ++ ps ≠ "" := by
  rw [Ne, str_eq_iff_data]
  have h1 : ("?page=" : String).data = ['?', 'p', 'a', 'g', 'e', '='] := rfl
  simp [data_append, h1]

theorem blog_ne_blogpage (t ps : String) :
    ("/blog" : String) ≠ "/blog?page=" ++ t ++ "&page_size=" ++ ps := by
  rw [Ne, str_eq_iff_data]
  have h1 : ("/blog" : String).data = ['/', 'b', 'l', 'o', 'g'] := rfl
  have h2 : ("/blog?page=" : String).data =
    ['/', 'b', 'l', 'o', 'g', '?', 'p', 'a', 'g', 'e', '='] := rfl
  simp [data_append, h1, h2]

theorem blog_append_page (t ps : String) :
    ("/blog" : String) ++ ("?page=" ++ t ++ "&page_size=" ++ ps) =
      "/blog?page=" ++ t ++ "&page_size=" ++ ps := by
  rw [str_eq_iff_data]
  simp [data_append, List.append_assoc]

/-- The pager-link dichotomy shared by the prev and next links: a truthy
flag yields the full page link, a falsy one yields the bare `/blog` href
with the disabled attribute. -/
theorem pager_link_iff (v : JVal) (target : Int) (ps : String) :
    (truthy v = true ↔
      "/blog" ++ (if truthy v then "?page=" ++ toString target ++ "&page_size=" ++ ps else "") =
        "/blog?page=" ++ toString target ++ "&page_size=" ++ ps) ∧
    (truthy v = false ↔
      (if truthy v then "?page=" ++ toString target ++ "&page_size=" ++ ps else "") = "" ∧
        (if truthy v then "" else "disabled") = "disabled") := by
  cases hv : truthy v
  · refine ⟨⟨fun h => absurd h (by simp), fun h => ?_⟩, by simp⟩
    have h2 : ("/blog" : String) = "/blog?page=" ++ toString target ++ "&page_size=" ++ ps := by
      simpa using h
    exact absurd h2 (blog_ne_blogpage _ _)
  · refine ⟨by simp [blog_append_page], ?_⟩
    constructor
    · intro h; exact absurd h (by simp)
    · rintro ⟨h1, _⟩
      exact absurd h1 (qpage_ne_empty _ _)

/-- C10: whenever the upstream status differs from 200, both HTML routes
answer with a plain-text error message carrying the upstream status code,
independent of the upstream payload, and render no HTML. -/
theorem blog_routes_error_passthrough (s : Nat) (payload payload2 : JVal)
    (pageOpt psOpt : Option String) (hs : s ≠ 200) :
    blogIndexRoute s payload pageOpt psOpt =
      some (RouteReply.plainText ("Error al cargar posts (" ++ toString s ++ ")") s) ∧
    blogPostRoute s payload2 =
      some (RouteReply.plainText ("Post no encontrado (" ++ toString s ++ ")") s) := by
  constructor <;> simp [blogIndexRoute, blogPostRoute, hs]

/-- Witness for C10 at upstream status 404. -/
theorem blog_routes_error_passthrough_w :
    blogIndexRoute 404 JVal.null none none =
      some (RouteReply.plainText ("Error al cargar posts (" ++ toString (404 : Nat) ++ ")") 404) ∧
    blogPostRoute 404 JVal.null =
      some (RouteReply.plainText ("Post no encontrado (" ++ toString (404 : Nat) ++ ")") 404) :=
  blog_routes_error_passthrough 404 JVal.null JVal.null none none (by decide)

/-- C7: on a 200 upstream payload, `blog_post` renders a pure function of
the payload: the fixed shell around `data.title` (default "Sin título" when
absent), the first 10 characters of `data.published` (empty when absent or
null) and `data.body` (default paragraph when absent, null or empty). -/
theorem blog_post_render_spec (payload : JVal) (fs pfs : List (String × JVal))
    (t p b : String)
    (hp : payload = JVal.obj fs)
    (hd : (jGet fs "data").getD (JVal.obj []) = JVal.obj pfs)
    (ht : (jGet pfs "title").getD (JVal.str "Sin título") = JVal.str t)
    (hpub : pyOr ((jGet pfs "published").getD JVal.null) (JVal.str "") = JVal.str p)
    (hb : pyOr ((jGet pfs "body").getD JVal.null) (JVal.str "<p>Sin contenido.</p>") =
      JVal.str b) :
    blogPostRoute 200 payload =
      some (RouteReply.htmlPage
        (htmlShell ("Nannyfy • " ++ t) (articleHtml t (⟨p.data.take 10⟩ : String) b)) 200) ∧
    (jGet pfs "title" = none → t = "Sin título") ∧
    (jGet pfs "published" = none ∨ jGet pfs "published" = some JVal.null → p = "") ∧
    (jGet pfs "body" = none ∨ jGet pfs "body" = some JVal.null ∨
        jGet pfs "body" = some (JVal.str "") →
      b = "<p>Sin contenido.</p>") := by
  subst hp
  refine ⟨?_, ?_, ?_, ?_⟩
  · simp [blogPostRoute, blogPostRender, hd, ht, hpub, hb, pySlice10, pyStr]
  · intro h
    rw [h] at ht
    simpa [eq_comm] using ht
  · intro h
    rcases h with h | h <;> rw [h] at hpub <;>
      simpa [pyOr, truthy, eq_comm] using hpub
  · intro h
    rcases h with h | h | h <;> rw [h] at hb <;>
      simpa [pyOr, truthy, eq_comm] using hb

/-- Witness for C7 at a concrete JSON payload. -/
theorem blog_post_render_spec_w :
    blogPostRoute 200 (JVal.obj [("data", JVal.obj
        [("title", JVal.str "Hola"), ("published", JVal.str "2024-05-06T07:08:09Z"),
         ("body", JVal.str "<p>x</p>")])]) =
      some (RouteReply.htmlPage
        (htmlShell ("Nannyfy • " ++ "Hola")
          (articleHtml "Hola" (⟨("2024-05-06T07:08:09Z" : String).data.take 10⟩ : String)
            "<p>x</p>")) 200) :=
  (blog_post_render_spec
    (JVal.obj [("data", JVal.obj
      [("title", JVal.str "Hola"), ("published", JVal.str "2024-05-06T07:08:09Z"),
       ("body", JVal.str "<p>x</p>")])])
    [("data", JVal.obj
      [("title", JVal.str "Hola"), ("published", JVal.str "2024-05-06T07:08:09Z"),
       ("body", JVal.str "<p>x</p>")])]
    [("title", JVal.str "Hola"), ("published", JVal.str "2024-05-06T07:08:09Z"),
     ("body", JVal.str "<p>x</p>")]
    "Hola" "2024-05-06T07:08:09Z" "<p>x</p>" rfl rfl rfl rfl rfl).1

/-- C5: on a 200 upstream payload, `blog_index` renders the grid plus a
pager whose prev link targets page `curr - 1` exactly when
`meta.previous_page` is truthy (bare disabled link otherwise), whose next
link targets `curr + 1` exactly when `meta.next_page` is truthy, both links
carrying the inbound page size; `curr` is the parsed page parameter,
defaulting to 1 when absent or unparseable. -/
theorem blog_index_render_spec (payload : JVal) (fs metaFs : List (String × JVal))
    (posts : List JVal) (cards : List String) (pageOpt psOpt : Option String)
    (hp : payload = JVal.obj fs)
    (hm : pyOr ((jGet fs "meta").getD (JVal.obj [])) (JVal.obj []) = JVal.obj metaFs)
    (hd : pyIter ((jGet fs "data").getD (JVal.arr [])) = some posts)
    (hc : cardsOf posts = some cards) :
    blogIndexRoute 200 payload pageOpt psOpt =
      some (RouteReply.htmlPage
        (htmlShell "Nannyfy • Blog de Crianza y Cuidado Infantil"
          (gridHtml cards ++
            pagerHtml ((jGet metaFs "previous_page").getD JVal.null)
              ((jGet metaFs "next_page").getD JVal.null)
              ((pyInt (pageOpt.getD "1")).getD 1) (psOpt.getD "9"))) 200) ∧
    (pageOpt = none → (pyInt (pageOpt.getD "1")).getD 1 = 1) ∧
    (pyInt (pageOpt.getD "1") = none → (pyInt (pageOpt.getD "1")).getD 1 = 1) ∧
    (∀ n, pyInt (pageOpt.getD "1") = some n → (pyInt (pageOpt.getD "1")).getD 1 = n) ∧
    (truthy ((jGet metaFs "previous_page").getD JVal.null) = true ↔
      "/blog" ++ prevQ ((jGet metaFs "previous_page").getD JVal.null)
          ((pyInt (pageOpt.getD "1")).getD 1) (psOpt.getD "9") =
        "/blog?page=" ++ toString ((pyInt (pageOpt.getD "1")).getD 1 - 1) ++
          "&page_size=" ++ psOpt.getD "9") ∧
    (truthy ((jGet metaFs "previous_page").getD JVal.null) = false ↔
      prevQ ((jGet metaFs "previous_page").getD JVal.null)
          ((pyInt (pageOpt.getD "1")).getD 1) (psOpt.getD "9") = "" ∧
        disabledAttr ((jGet metaFs "previous_page").getD JVal.null) = "disabled") ∧
    (truthy ((jGet metaFs "next_page").getD JVal.null) = true ↔
      "/blog" ++ nextQ ((jGet metaFs "next_page").getD JVal.null)
          ((pyInt (pageOpt.getD "1")).getD 1) (psOpt.getD "9") =
        "/blog?page=" ++ toString ((pyInt (pageOpt.getD "1")).getD 1 + 1) ++
          "&page_size=" ++ psOpt.getD "9") ∧
    (truthy ((jGet metaFs "next_page").getD JVal.null) = false ↔
      nextQ ((jGet metaFs "next_page").getD JVal.null)
          ((pyInt (pageOpt.getD "1")).getD 1) (psOpt.getD "9") = "" ∧
        disabledAttr ((jGet metaFs "next_page").getD JVal.null) = "disabled") := by
  subst hp
  refine ⟨?_, ?_, ?_, ?_, ?_, ?_, ?_, ?_⟩
  · simp [blogIndexRoute, blogIndexRender, hm, hd, hc]
  · intro h; subst h; decide
  · intro h; simp [h]
  · intro n h; simp [h]
  · simpa only [prevQ] using
      (pager_link_iff ((jGet metaFs "previous_page").getD JVal.null)
        ((pyInt (pageOpt.getD "1")).getD 1 - 1) (psOpt.getD "9")).1
  · simpa only [prevQ, disabledAttr] using
      (pager_link_iff ((jGet metaFs "previous_page").getD JVal.null)
        ((pyInt (pageOpt.getD "1")).getD 1 - 1) (psOpt.getD "9")).2
  · simpa only [nextQ] using
      (pager_link_iff ((jGet metaFs "next_page").getD JVal.null)
        ((pyInt (pageOpt.getD "1")).getD 1 + 1) (psOpt.getD "9")).1
  · simpa only [nextQ, disabledAttr] using
      (pager_link_iff ((jGet metaFs "next_page").getD JVal.null)
        ((pyInt (pageOpt.getD "1")).getD 1 + 1) (psOpt.getD "9")).2

/-- Witness for C5 at a concrete empty-post payload with a truthy next
page. -/
theorem blog_index_render_spec_w :
    blogIndexRoute 200
      (JVal.obj [("data", JVal.arr []),
        ("meta", JVal.obj [("previous_page", JVal.null), ("next_page", JVal.num 2)])])
      none none =
      some (RouteReply.htmlPage
        (htmlShell "Nannyfy • Blog de Crianza y Cuidado Infantil"
          (gridHtml [] ++ pagerHtml JVal.null (JVal.num 2) 1 "9")) 200) := by
  have h := (blog_index_render_spec
    (JVal.obj [("data", JVal.arr []),
      ("meta", JVal.obj [("previous_page", JVal.null), ("next_page", JVal.num 2)])])
    [("data", JVal.arr []),
      ("meta", JVal.obj [("previous_page", JVal.null), ("next_page", JVal.num 2)])]
    [("previous_page", JVal.null), ("next_page", JVal.num 2)]
    [] [] none none rfl rfl rfl rfl).1
  simpa using h

end ButterBridge
